import Mathlib

/-!
Verification of the retrieval-and-answer-composition pipeline of a RAG backend.

The Python sources embedded here (shallowly) are:
  backend/app/api/routes/query.py        (query_documents, _fallback_search,
                                          _build_context, _create_fallback_response)
  backend/app/services/ai_service.py     (AIService.create_embeddings and its
                                          hash-based fallbacks)
  backend/app/services/multi_agent_service.py
                                         (MultiAgentService.detect_domain,
                                          generate_response, _create_fallback_response,
                                          generate_response_with_web_search)
  backend/app/services/vector_service.py (result shapes of the vector searches)

Python strings are modelled as `List Char` (one entry per code point, so `len`
and slicing agree with `List.length` / `List.take`).  Python floats are
modelled as `ℚ`; every numeric value the pipeline manipulates is a small
rational for which binary-float comparison agrees with exact rational
comparison.  External effects (HTTP calls to the embedding provider, the
vector store, the generative model and web search) are modelled as explicit
oracle values/functions supplied in an environment record; an exception
raised by an external call is an explicit `Except.error` / `Option.none`
outcome.  Dictionaries with optional keys are modelled as structures with
`Option` fields.
-/

namespace RagPipeline

/-! ## Python string primitives on `List Char` -/

/-- Python `str.lower()` (the texts involved are ASCII, where `Char.toLower`
agrees with Python). -/
def lowerStr (s : List Char) : List Char := s.map Char.toLower

/-- Whitespace characters recognised by Python's `str.split()` / `str.strip()`:
space, tab, newline, carriage return, vertical tab, form feed. -/
def pyIsSpace (c : Char) : Bool :=
  c = ' ' || c = '\t' || c = '\n' || c = '\r' || c = '\x0b' || c = '\x0c'

/-- Python `str.strip()`: drop leading and trailing whitespace. -/
def pyStrip (s : List Char) : List Char :=
  ((s.dropWhile pyIsSpace).reverse.dropWhile pyIsSpace).reverse

/-- Python `str.split()` with no argument: split on runs of whitespace,
producing no empty words. -/
def pySplit : List Char → List (List Char) :=
  go []
where
  /-- Here `cur` is the reversed current word. -/
  go (cur : List Char) : List Char → List (List Char)
    | [] => if cur.isEmpty then [] else [cur.reverse]
    | c :: rest =>
      if pyIsSpace c then
        if cur.isEmpty then go [] rest else cur.reverse :: go [] rest
      else
        go (c :: cur) rest

/-- Python `needle in hay` substring test. -/
def hasSub (needle : List Char) : List Char → Bool
  | [] => needle.isEmpty
  | c :: rest => needle.isPrefixOf (c :: rest) || hasSub needle rest

/-- Fuel-driven scan for `pyCount` (structural recursion on the fuel keeps
the function kernel-computable; `fuel = hay.length` always suffices, since
each step consumes at least one character of `hay`). -/
def pyCountAux (needle : List Char) : Nat → List Char → Nat
  | _, [] => 0
  | 0, _ => 0
  | fuel + 1, c :: rest =>
    if needle.isPrefixOf (c :: rest) then
      1 + pyCountAux needle fuel (rest.drop (needle.length - 1))
    else
      pyCountAux needle fuel rest

/-- Python `hay.count(needle)` for a nonempty needle: number of
non-overlapping occurrences, scanning from the left.  (The pipeline only ever
counts words of length ≥ 3, so the empty-needle behaviour of Python's `count`
is irrelevant; this function is total on it anyway.) -/
def pyCount (needle hay : List Char) : Nat := pyCountAux needle hay.length hay

/-! ## Embedding gateway (`ai_service.py`)

`AIService` calls the Hugging Face inference API; every failure point is
modelled explicitly.  `md5hex` is the oracle for `hashlib.md5(...).hexdigest()`
(an arbitrary function — the theorems hold for every digest function, in
particular the real MD5), and `rand` is the oracle for `random.random()`
draws used by the very last fallback. -/

/-- Outcome of the `requests.post` call to the embedding provider:
HTTP 200 with a JSON array of numbers, a non-200 status code, or a raised
exception (connection error, timeout, non-array JSON body, ...). -/
inductive ProviderOutcome where
  | ok (vec : List ℚ)
  | badStatus (code : Nat)
  | exn
deriving DecidableEq

/-- Value of a hexadecimal digit, as accepted by Python `int(_, 16)`. -/
def hexDigitVal? (c : Char) : Option Nat :=
  if '0' ≤ c ∧ c ≤ '9' then some (c.toNat - '0'.toNat)
  else if 'a' ≤ c ∧ c ≤ 'f' then some (c.toNat - 'a'.toNat + 10)
  else if 'A' ≤ c ∧ c ≤ 'F' then some (c.toNat - 'A'.toNat + 10)
  else none

/-- Python `int(s, 16)`; `none` models the `ValueError` raised on an empty
string or a non-hex character. -/
def hexVal? (s : List Char) : Option Nat :=
  if s.isEmpty then none
  else s.foldlM (fun acc c => (hexDigitVal? c).map (fun v => acc * 16 + v)) 0

/-- The slices `s[i:i+2]` for `i in range(0, len(s), 2)`: chunks of two
characters (a final odd chunk has one character). -/
def chunkPairs : List Char → List (List Char)
  | [] => []
  | [a] => [[a]]
  | a :: b :: rest => [a, b] :: chunkPairs rest

/-- Values `(int(hex_pair, 16) - 128) / 128.0` for each chunk; `none` if any chunk is
not valid hexadecimal (Python would raise). -/
def hexPairValues? (pairs : List (List Char)) : Option (List ℚ) :=
  pairs.mapM (fun p => (hexVal? p).map (fun v => ((v : ℚ) - 128) / 128))

/-- Python `while len(e) < 768: e.append(0.0)` followed by `e = e[:768]`. -/
def padTrunc768 (l : List ℚ) : List ℚ :=
  (l ++ List.replicate (768 - l.length) 0).take 768

/-- Python `re.sub(r'[^\w\s]', ' ', text)`: replace every character that is
neither a word character (`[A-Za-z0-9_]`, extended to alphanumeric code
points) nor whitespace by a space. -/
def subNonWordSpace (s : List Char) : List Char :=
  s.map (fun c => if c.isAlphanum || c = '_' || pyIsSpace c then c else ' ')

/-- Model of `AIService._create_hash_embeddings`: MD5-derived 768-vector; if the hash
pipeline itself fails, a 768-vector of `random.random() - 0.5` draws. -/
def create_hash_embeddings (md5hex : List Char → List Char) (rand : Nat → ℚ)
    (text : List Char) : List ℚ :=
  let text_hash := md5hex text
  match hexPairValues? ((chunkPairs text_hash).take 768) with
  | some vals => padTrunc768 vals
  | none => (List.range 768).map (fun i => rand i - 1/2)

/-- Model of `AIService._create_enhanced_embeddings`: two hash-derived blocks (full
text, first 10 normalized words) plus three text-statistics features, padded
and truncated to 768; any exception falls back to `_create_hash_embeddings`. -/
def create_enhanced_embeddings (md5hex : List Char → List Char) (rand : Nat → ℚ)
    (text : List Char) : List ℚ :=
  let text_clean := subNonWordSpace (lowerStr text)
  let words := pySplit text_clean
  let full_hash := md5hex text
  let word_hash := md5hex (List.intercalate [' '] (words.take 10))
  match hexPairValues? (chunkPairs (full_hash.take 64)),
        hexPairValues? (chunkPairs (word_hash.take 64)) with
  | some vals1, some vals2 =>
    let features : List ℚ :=
      [(text.length : ℚ) / 10000,
       (words.length : ℚ) / 100,
       if ¬words.isEmpty then ((words.dedup.length : ℚ) / words.length) else 0]
    padTrunc768 (vals1 ++ vals2 ++ features)
  | _, _ => create_hash_embeddings md5hex rand text

/-- Model of `AIService._create_all_minilm_embeddings`: on HTTP 200 pad/truncate the
provider's vector to 768; on a non-200 status or a raised exception fall back
to `_create_enhanced_embeddings`. -/
def create_all_minilm_embeddings (md5hex : List Char → List Char) (rand : Nat → ℚ)
    (outcome : ProviderOutcome) (text : List Char) : List ℚ :=
  match outcome with
  | .ok embeddings =>
    if embeddings.length = 384 then embeddings ++ List.replicate 384 0
    else if embeddings.length < 768 then
      embeddings ++ List.replicate (768 - embeddings.length) 0
    else embeddings.take 768
  | .badStatus _ => create_enhanced_embeddings md5hex rand text
  | .exn => create_enhanced_embeddings md5hex rand text

/-- Model of `AIService.create_embeddings`: delegates to the all-MiniLM path; its own
`except` clause (falling back to `_create_enhanced_embeddings`) is preserved
structurally by the fact that the delegate already absorbs every failure. -/
def create_embeddings (md5hex : List Char → List Char) (rand : Nat → ℚ)
    (outcome : ProviderOutcome) (text : List Char) : List ℚ :=
  create_all_minilm_embeddings md5hex rand outcome text

theorem padTrunc768_length (l : List ℚ) : (padTrunc768 l).length = 768 := by
  simp only [padTrunc768, List.length_take, List.length_append, List.length_replicate]
  omega

theorem create_hash_embeddings_length (md5hex : List Char → List Char)
    (rand : Nat → ℚ) (text : List Char) :
    (create_hash_embeddings md5hex rand text).length = 768 := by
  unfold create_hash_embeddings
  dsimp only
  cases h : hexPairValues? ((chunkPairs (md5hex text)).take 768) with
  | none => simp
  | some vals => exact padTrunc768_length vals

theorem create_enhanced_embeddings_length (md5hex : List Char → List Char)
    (rand : Nat → ℚ) (text : List Char) :
    (create_enhanced_embeddings md5hex rand text).length = 768 := by
  unfold create_enhanced_embeddings
  dsimp only
  cases h1 : hexPairValues? (chunkPairs ((md5hex text).take 64)) with
  | none => exact create_hash_embeddings_length md5hex rand text
  | some vals1 =>
    cases h2 : hexPairValues? (chunkPairs
        ((md5hex (List.intercalate [' ']
          ((pySplit (subNonWordSpace (lowerStr text))).take 10))).take 64)) with
    | none => exact create_hash_embeddings_length md5hex rand text
    | some vals2 => exact padTrunc768_length _

/-- C2: for every text, every provider outcome (success with a vector of any
length, non-200 status, or raised exception) and every hash/random oracle,
`create_embeddings` returns a vector of exactly 768 values.  The function is
total (it returns a plain list, with every fallible external step modelled as
an explicit outcome), which is the formal rendering of "never raises an
exception to its caller". -/
theorem create_embeddings_always_768 (md5hex : List Char → List Char)
    (rand : Nat → ℚ) (outcome : ProviderOutcome) (text : List Char) :
    (create_embeddings md5hex rand outcome text).length = 768 := by
  unfold create_embeddings create_all_minilm_embeddings
  cases outcome with
  | ok embeddings =>
    dsimp only
    split_ifs with h384 hlt <;>
      simp only [List.length_append, List.length_replicate, List.length_take] <;>
      omega
  | badStatus code => exact create_enhanced_embeddings_length md5hex rand text
  | exn => exact create_enhanced_embeddings_length md5hex rand text

/-! ## Scores: Python floats as explicit fractions

Relevance scores (from the vector store or computed by the keyword fallback)
are IEEE doubles in Python.  Every such double is a fraction with positive
denominator; `PyFloat` represents exactly that (`num / (denPred + 1)`), kept
un-normalised so that all operations are kernel-computable.  `toRat` is the
value of a `PyFloat`; the pipeline's comparisons are defined computably and
proved to agree with the rational order, which on these fractions agrees with
exact IEEE comparison. -/

structure PyFloat where
  num : Int
  denPred : Nat
deriving DecidableEq

/-- Denominator of a `PyFloat`, always positive. -/
def PyFloat.den (q : PyFloat) : Int := (q.denPred : Int) + 1

/-- Rational value of a `PyFloat`. -/
def PyFloat.toRat (q : PyFloat) : ℚ := (q.num : ℚ) / ((q.denPred : ℚ) + 1)

/-- Computable `≤` on scores (cross multiplication). -/
def pfLe (a b : PyFloat) : Bool := decide (a.num * b.den ≤ b.num * a.den)

/-- Computable `<` on scores (cross multiplication). -/
def pfLt (a b : PyFloat) : Bool := decide (a.num * b.den < b.num * a.den)

/-- Embedding of an integer count. -/
def pfOfNat (n : Nat) : PyFloat := ⟨(n : Int), 0⟩

/-- Division of a score by a positive count (`score / len(keywords)`;
in the sources the divisor is always ≥ 1 when this is reached). -/
def pfDivNat (q : PyFloat) (k : Nat) : PyFloat := ⟨q.num, (q.denPred + 1) * k - 1⟩

theorem pfDen_posRat (q : PyFloat) : (0 : ℚ) < (q.denPred : ℚ) + 1 := by
  positivity

theorem pfLe_iff (a b : PyFloat) : pfLe a b = true ↔ a.toRat ≤ b.toRat := by
  rw [pfLe, decide_eq_true_eq, PyFloat.toRat, PyFloat.toRat,
    div_le_div_iff₀ (pfDen_posRat a) (pfDen_posRat b)]
  rw [PyFloat.den, PyFloat.den]
  constructor
  · intro h
    exact_mod_cast h
  · intro h
    exact_mod_cast h

theorem pfLt_iff (a b : PyFloat) : pfLt a b = true ↔ a.toRat < b.toRat := by
  rw [pfLt, decide_eq_true_eq, PyFloat.toRat, PyFloat.toRat,
    div_lt_div_iff₀ (pfDen_posRat a) (pfDen_posRat b)]
  rw [PyFloat.den, PyFloat.den]
  constructor
  · intro h
    exact_mod_cast h
  · intro h
    exact_mod_cast h

theorem pfOfNat_toRat (n : Nat) : (pfOfNat n).toRat = (n : ℚ) := by
  simp [pfOfNat, PyFloat.toRat]

theorem pfDivNat_toRat (q : PyFloat) (k : Nat) (hk : 0 < k) :
    (pfDivNat q k).toRat = q.toRat / (k : ℚ) := by
  obtain ⟨j, rfl⟩ : ∃ j, k = j + 1 := ⟨k - 1, by omega⟩
  rw [pfDivNat, PyFloat.toRat, PyFloat.toRat, div_div]
  congr 1
  have h1 : (q.denPred + 1) * (j + 1) - 1 = q.denPred * j + q.denPred + j := by
    ring_nf
    omega
  rw [h1]
  push_cast
  ring

/-! ## Retrieval result and document shapes

`query.py` manipulates loosely-typed dicts: a search result optionally has a
`"payload"` key (itself a dict with optional `"text"`, `"filename"`,
`"document_id"` keys) and an optional `"score"` key; `.get` defaults are
reproduced by `Option.getD` at each use site. -/

structure Payload where
  text : Option (List Char)
  filename : Option (List Char)
  document_id : Option (List Char)
deriving DecidableEq

structure SearchResult where
  score : Option PyFloat
  payload : Option Payload
deriving DecidableEq

/-- Python `result.get("score", 0)`. -/
def scoreOf (r : SearchResult) : PyFloat := r.score.getD ⟨0, 0⟩

/-- A row of the relational `documents` table, as read by the query route. -/
structure Doc where
  document_id : List Char
  filename : List Char
  upload_date : Int
  text_content : Option (List Char)
deriving DecidableEq

/-! ## Keyword fallback search (`query.py`, `_fallback_search`) -/

/-- The keyword list of `_fallback_search`:
`[word for word in question.lower().split() if len(word) > 2]`. -/
def questionKeywords (question : List Char) : List (List Char) :=
  (pySplit (lowerStr question)).filter (fun w => 2 < w.length)

/-- The order used to model `scored_docs.sort(key=lambda x: x["score"],
reverse=True)`: descending by score.  `List.insertionSort` with this order is
a stable sort, like Python's. -/
def scoreDescOrder (a b : SearchResult) : Prop := pfLe (scoreOf b) (scoreOf a) = true

instance : DecidableRel scoreDescOrder := fun _ _ => instDecidableEqBool _ _

/-- Model of `_fallback_search`.  Here `docsOutcome = none` models an exception raised while
fetching the documents (the function's `except` clause returns `[]`);
`chat_creation_time` is the optional session cutoff. -/
def fallback_search (question : List Char) (docsOutcome : Option (List Doc))
    (chat_creation_time : Option Int) : List SearchResult :=
  match docsOutcome with
  | none => []
  | some documents =>
    if documents.isEmpty then [] else
    let documents : List Doc := match chat_creation_time with
      | some t => documents.filter (fun d => decide (t < d.upload_date))
      | none => documents
    let keywords := questionKeywords question
    let scored_docs : List SearchResult := documents.filterMap (fun doc : Doc =>
      match doc.text_content with
      | none => none
      | some tc =>
        if tc.isEmpty then (none : Option SearchResult) else
        let text_lower := lowerStr tc
        let score := (keywords.map (fun k => pyCount k text_lower)).sum
        if 0 < score then
          some { score := some (pfDivNat (pfOfNat score) keywords.length),
                 payload := some { text := some tc, filename := some doc.filename,
                                   document_id := some doc.document_id } }
        else none)
    (List.insertionSort scoreDescOrder scored_docs).take 3

/-! ## Context builder (`query.py`, `_build_context`) -/

/-- Python `f"{x:.3f}"` on a score (the round-to-even behaviour of binary
doubles at exact half-thousandths is abstracted to rounding half away from
the floor; the integer computed is `⌊x * 1000 + 1/2⌋`). -/
def formatScore3 (q : PyFloat) : List Char :=
  let n : Int := Int.fdiv (2000 * q.num + q.den) (2 * q.den)
  let sign : List Char := if n < 0 then ['-'] else []
  let m := n.natAbs
  let fracDigits := (Nat.repr (m % 1000)).data
  sign ++ (Nat.repr (m / 1000)).data ++ ['.']
    ++ (List.replicate (3 - fracDigits.length) '0' ++ fracDigits)

def truncation_marker : List Char := "\n\n[Content truncated due to size limits...]".data

/-- Python `sep.join(parts)`. -/
def joinSep (sep : List Char) : List (List Char) → List Char
  | [] => []
  | [x] => x
  | x :: y :: rest => x ++ sep ++ joinSep sep (y :: rest)

/-- The per-result segments of `_build_context`: results are enumerated, and
results without a `"payload"` key are skipped (their index still counts). -/
def contextSegments (search_results : List SearchResult) : List (List Char) :=
  search_results.enum.filterMap (fun p =>
    p.2.payload.map (fun pl =>
      "[Document ".data ++ (Nat.repr (p.1 + 1)).data ++ ": ".data
        ++ pl.filename.getD "Unknown".data ++ ", Relevance: ".data
        ++ formatScore3 (scoreOf p.2) ++ "]\n".data ++ pl.text.getD []))

/-- The concatenation `"\n\n".join(context_parts)` before the size limit. -/
def naiveContext (search_results : List SearchResult) : List Char :=
  joinSep "\n\n".data (contextSegments search_results)

/-- Model of `_build_context`: join the segments, then if the result is longer than
30000 characters, truncate at 30000 and append the truncation marker. -/
def build_context (search_results : List SearchResult) : List Char :=
  let context := naiveContext search_results
  if 30000 < context.length then context.take 30000 ++ truncation_marker
  else context

theorem truncation_marker_length : truncation_marker.length = 43 := by decide

theorem build_context_length_le (rs : List SearchResult) :
    (build_context rs).length ≤ 30043 := by
  unfold build_context
  dsimp only
  split
  · next h =>
    simp only [List.length_append, List.length_take, truncation_marker_length]
    omega
  · next h => omega

theorem build_context_marker_suffix (rs : List SearchResult)
    (h : 30000 < (naiveContext rs).length) :
    truncation_marker <:+ build_context rs := by
  unfold build_context
  dsimp only
  rw [if_pos h]
  exact List.suffix_append _ _

theorem build_context_length_of_overflow (rs : List SearchResult)
    (h : 30000 < (naiveContext rs).length) :
    (build_context rs).length = 30043 := by
  unfold build_context
  dsimp only
  rw [if_pos h]
  simp only [List.length_append, List.length_take, truncation_marker_length]
  omega

/-- Concrete overflow input for the context builder: one result whose text
alone is 30001 characters, so the naive concatenation (header + text,
30035 characters) exceeds the 30000-character ceiling. -/
def overflowResult : SearchResult :=
  { score := some ⟨1, 1⟩,
    payload := some { text := some (List.replicate 30001 'a'),
                      filename := some "f".data, document_id := some "d".data } }

theorem overflow_naive_length : 30000 < (naiveContext [overflowResult]).length := by
  rw [show naiveContext [overflowResult]
      = "[Document 1: f, Relevance: 0.500]\n".data ++ List.replicate 30001 'a' from rfl]
  rw [List.length_append, List.length_replicate]
  have h : ("[Document 1: f, Relevance: 0.500]\n".data).length = 34 := by decide
  omega

/-- C3, counterexample: the claim says the context builder's output never
exceeds the 30000-character ceiling, but on truncation the code appends the
43-character marker AFTER cutting at 30000, so this concrete overflowing
input yields an output of 30043 > 30000 characters. -/
theorem build_context_exceeds_ceiling : 30000 < (build_context [overflowResult]).length := by
  rw [build_context_length_of_overflow [overflowResult] overflow_naive_length]
  omega

/-- C3 (amended): the context builder's output never exceeds the ceiling plus
the truncation marker's length (30000 + 43 characters), and whenever the
naive concatenation of all segments exceeds the ceiling the output ends with
the literal truncation marker. -/
theorem build_context_bounded_and_marked (rs : List SearchResult) :
    (build_context rs).length ≤ 30000 + truncation_marker.length
    ∧ (30000 < (naiveContext rs).length → truncation_marker <:+ build_context rs) :=
  ⟨by rw [truncation_marker_length]; exact build_context_length_le rs,
   build_context_marker_suffix rs⟩

/-- Witness for C3 (amended) at the concrete overflowing input. -/
theorem build_context_bounded_and_marked_witness :
    (build_context [overflowResult]).length ≤ 30000 + truncation_marker.length
    ∧ truncation_marker <:+ build_context [overflowResult] :=
  ⟨(build_context_bounded_and_marked [overflowResult]).1,
   (build_context_bounded_and_marked [overflowResult]).2 overflow_naive_length⟩

/-! ## C4/C10: properties of the keyword fallback search -/

instance : IsTotal SearchResult scoreDescOrder :=
  ⟨fun a b => by
    unfold scoreDescOrder
    rw [pfLe_iff, pfLe_iff]
    exact le_total _ _⟩

instance : IsTrans SearchResult scoreDescOrder :=
  ⟨fun a b c hab hbc => by
    unfold scoreDescOrder at *
    rw [pfLe_iff] at *
    exact le_trans hbc hab⟩

/-- A positivity test against the zero score reads off the strict sign of the
numerator, whatever the denominator. -/
theorem pfLt_zero_iff (q : PyFloat) : pfLt ⟨0, 0⟩ q = true ↔ 0 < q.num := by
  simp [pfLt, PyFloat.den]

theorem filterMap_eq_filter_map_filter {α β : Type _} (f : α → Option β)
    (p : α → Bool) (g : α → β) (q : β → Bool)
    (h : ∀ a, f a = if p a then (if q (g a) then some (g a) else none) else none) :
    ∀ l : List α, l.filterMap f = (((l.filter p).map g).filter q) := by
  intro l
  induction l with
  | nil => simp
  | cons x xs ih =>
    by_cases hp : p x
    · by_cases hq : q (g x)
      · simp [List.filterMap_cons, h x, hp, hq, ih]
      · simp [List.filterMap_cons, h x, hp, hq, ih]
    · simp [List.filterMap_cons, h x, hp, ih]

/-- Modelled from the claim's wording for C4 ("words longer than 3
characters"): identical to `_fallback_search` except that the keyword cutoff
keeps only words of length strictly greater than 3. -/
def fallback_search_claimC4 (question : List Char) (docsOutcome : Option (List Doc))
    (chat_creation_time : Option Int) : List SearchResult :=
  match docsOutcome with
  | none => []
  | some documents =>
    if documents.isEmpty then [] else
    let documents : List Doc := match chat_creation_time with
      | some t => documents.filter (fun d => decide (t < d.upload_date))
      | none => documents
    let keywords := (pySplit (lowerStr question)).filter (fun w => 3 < w.length)
    let scored_docs : List SearchResult := documents.filterMap (fun doc : Doc =>
      match doc.text_content with
      | none => none
      | some tc =>
        if tc.isEmpty then (none : Option SearchResult) else
        let text_lower := lowerStr tc
        let score := (keywords.map (fun k => pyCount k text_lower)).sum
        if 0 < score then
          some { score := some (pfDivNat (pfOfNat score) keywords.length),
                 payload := some { text := some tc, filename := some doc.filename,
                                   document_id := some doc.document_id } }
        else none)
    (List.insertionSort scoreDescOrder scored_docs).take 3

/-- The normalized keyword score of one document, as the amended claim
describes it: occurrences of each question word longer than 2 characters in
the lowercased text, summed, divided by the number of such words. -/
def docKeywordScore (question : List Char) (doc : Doc) : PyFloat :=
  let keywords := questionKeywords question
  pfDivNat
    (pfOfNat ((keywords.map (fun k => pyCount k (lowerStr (doc.text_content.getD [])))).sum))
    keywords.length

/-- The retrieval-result dict built by the fallback search for one document. -/
def resultOfDoc (question : List Char) (doc : Doc) : SearchResult :=
  { score := some (docKeywordScore question doc),
    payload := some { text := some (doc.text_content.getD []),
                      filename := some doc.filename,
                      document_id := some doc.document_id } }

/-- The amended claim's declarative description of the keyword fallback:
filter out documents without text, score each remaining one, keep those with
strictly positive score, sort by score descending (stable), return the top 3.
The exceptional/empty cases return the empty list. -/
def fallback_search_specA (question : List Char) (docsOutcome : Option (List Doc))
    (chat_creation_time : Option Int) : List SearchResult :=
  match docsOutcome with
  | none => []
  | some documents =>
    if documents.isEmpty then [] else
    let inScope : List Doc := match chat_creation_time with
      | some t => documents.filter (fun d => decide (t < d.upload_date))
      | none => documents
    let scored := (inScope.filter (fun d => !(d.text_content.getD []).isEmpty)).map
      (resultOfDoc question)
    let positive := scored.filter (fun r => pfLt ⟨0, 0⟩ (scoreOf r))
    (List.insertionSort scoreDescOrder positive).take 3

theorem fallback_pointwise (question : List Char) (doc : Doc) :
    (match doc.text_content with
      | none => none
      | some tc =>
        if tc.isEmpty then (none : Option SearchResult) else
        let text_lower := lowerStr tc
        let score := ((questionKeywords question).map (fun k => pyCount k text_lower)).sum
        if 0 < score then
          some { score := some (pfDivNat (pfOfNat score) (questionKeywords question).length),
                 payload := some { text := some tc, filename := some doc.filename,
                                   document_id := some doc.document_id } }
        else none)
    = if !(doc.text_content.getD []).isEmpty then
        (if pfLt ⟨0, 0⟩ (scoreOf (resultOfDoc question doc)) then
          some (resultOfDoc question doc) else none)
      else none := by
  cases htc : doc.text_content with
  | none => simp
  | some tc =>
    have hgetD : doc.text_content.getD [] = tc := by rw [htc]; rfl
    by_cases he : tc.isEmpty
    · simp [htc, he]
    · have hres : resultOfDoc question doc =
          { score := some (pfDivNat
              (pfOfNat (((questionKeywords question).map
                (fun k => pyCount k (lowerStr tc))).sum))
              (questionKeywords question).length),
            payload := some { text := some tc, filename := some doc.filename,
                              document_id := some doc.document_id } } := by
        rw [resultOfDoc, docKeywordScore, hgetD]
      have hq : (pfLt ⟨0, 0⟩ (scoreOf (resultOfDoc question doc)) = true) ↔
          0 < ((questionKeywords question).map (fun k => pyCount k (lowerStr tc))).sum := by
        rw [hres, pfLt_zero_iff]
        simp only [scoreOf, Option.getD_some, pfDivNat, pfOfNat]
        exact Int.natCast_pos
      dsimp only
      simp only [Bool.not_eq_true'] at he
      simp only [Option.getD_some, he, Bool.not_false, if_true, Bool.false_eq_true, if_false]
      by_cases hs : 0 < ((questionKeywords question).map (fun k => pyCount k (lowerStr tc))).sum
      · rw [if_pos (hq.mpr hs), hres]
        simp only [hs, if_true]
      · rw [if_neg (fun h => hs (hq.mp h))]
        simp only [hs, if_false]

theorem pfZero_toRat : (PyFloat.mk 0 0).toRat = 0 := by
  simp [PyFloat.toRat]

theorem fallback_search_eq_specA_all (question : List Char)
    (docsOutcome : Option (List Doc)) (chat_creation_time : Option Int) :
    fallback_search question docsOutcome chat_creation_time
    = fallback_search_specA question docsOutcome chat_creation_time := by
  cases docsOutcome with
  | none => rfl
  | some documents =>
    unfold fallback_search fallback_search_specA
    dsimp only
    by_cases hd : documents.isEmpty
    · rw [if_pos hd, if_pos hd]
    · rw [if_neg hd, if_neg hd]
      congr 1
      congr 1
      exact filterMap_eq_filter_map_filter _ _ _ _
        (fun doc => fallback_pointwise question doc) _

/-- C4, counterexample: with question "the sun is hot" (no word longer than
3 characters, but three words longer than 2) and one matching document, the
code returns that document while the claim's algorithm (cutoff "longer than
3 characters") returns nothing. -/
theorem fallback_search_wordlen_counterexample :
    fallback_search "the sun is hot".data
      (some [⟨"d1".data, "f1".data, 5, some "Sun sun SUN".data⟩]) none
    ≠ fallback_search_claimC4 "the sun is hot".data
      (some [⟨"d1".data, "f1".data, 5, some "Sun sun SUN".data⟩]) none := by
  decide

/-- C4 (amended): `_fallback_search` scores each document with text by
counting case-insensitive occurrences of the question's words longer than 2
characters, normalizes by the number of such words, keeps only strictly
positive scores, sorts descending (stably), and returns at most the top 3 —
stated as extensional equality with the declarative description. -/
theorem fallback_search_matches_spec (question : List Char)
    (docsOutcome : Option (List Doc)) (chat_creation_time : Option Int) :
    fallback_search question docsOutcome chat_creation_time
    = fallback_search_specA question docsOutcome chat_creation_time :=
  fallback_search_eq_specA_all question docsOutcome chat_creation_time

/-- C10: the keyword fallback returns at most 3 results, all with strictly
positive scores, in non-increasing score order; it returns `[]` when the
question has no word longer than 2 characters, when the document set is
empty, and when fetching the documents raises (the function itself is total:
it never raises). -/
theorem fallback_search_invariants (q : List Char) (docsO : Option (List Doc))
    (ct : Option Int) :
    (fallback_search q docsO ct).length ≤ 3
    ∧ (∀ r ∈ fallback_search q docsO ct, 0 < (scoreOf r).toRat)
    ∧ List.Sorted (fun a b => (scoreOf b).toRat ≤ (scoreOf a).toRat)
        (fallback_search q docsO ct)
    ∧ (questionKeywords q = [] → fallback_search q docsO ct = [])
    ∧ (docsO = some [] → fallback_search q docsO ct = [])
    ∧ (docsO = none → fallback_search q docsO ct = []) := by
  refine ⟨?_, ?_, ?_, ?_, ?_, ?_⟩
  · -- at most 3 results
    rw [fallback_search_eq_specA_all]
    unfold fallback_search_specA
    cases docsO with
    | none => simp
    | some documents =>
      dsimp only
      by_cases hd : documents.isEmpty
      · rw [if_pos hd]; simp
      · rw [if_neg hd]
        exact List.length_take_le 3 _
  · -- every returned score is strictly positive
    intro r hr
    rw [fallback_search_eq_specA_all] at hr
    unfold fallback_search_specA at hr
    cases docsO with
    | none => simp at hr
    | some documents =>
      dsimp only at hr
      by_cases hd : documents.isEmpty
      · rw [if_pos hd] at hr; simp at hr
      · rw [if_neg hd] at hr
        have h1 := (List.take_sublist 3 _).subset hr
        have h2 := (List.perm_insertionSort scoreDescOrder _).subset h1
        have h3 := (List.mem_filter.mp h2).2
        rw [pfLt_iff, pfZero_toRat] at h3
        exact h3
  · -- non-increasing score order
    rw [fallback_search_eq_specA_all]
    unfold fallback_search_specA
    cases docsO with
    | none => simp
    | some documents =>
      dsimp only
      by_cases hd : documents.isEmpty
      · rw [if_pos hd]; simp
      · rw [if_neg hd]
        have hsorted := List.sorted_insertionSort scoreDescOrder
          ((((match ct with
              | some t => documents.filter (fun d : Doc => decide (t < d.upload_date))
              | none => documents).filter
                (fun d : Doc => !(d.text_content.getD []).isEmpty)).map
                  (resultOfDoc q)).filter (fun r => pfLt ⟨0, 0⟩ (scoreOf r)))
        have htake := hsorted.sublist (List.take_sublist 3 _)
        exact htake.imp (fun hab => (pfLe_iff _ _).mp hab)
  · -- no sufficiently long word in the question
    intro hk
    rw [fallback_search_eq_specA_all]
    unfold fallback_search_specA
    cases docsO with
    | none => rfl
    | some documents =>
      dsimp only
      by_cases hd : documents.isEmpty
      · rw [if_pos hd]
      · rw [if_neg hd]
        have hfil : (((match ct with
            | some t => documents.filter (fun d : Doc => decide (t < d.upload_date))
            | none => documents).filter
              (fun d : Doc => !(d.text_content.getD []).isEmpty)).map
                (resultOfDoc q)).filter (fun r => pfLt ⟨0, 0⟩ (scoreOf r)) = [] := by
          rw [List.filter_eq_nil_iff]
          intro r hrm
          obtain ⟨doc, _, rfl⟩ := List.mem_map.mp hrm
          simp [scoreOf, resultOfDoc, docKeywordScore, hk, pfLt, pfDivNat, pfOfNat,
            PyFloat.den]
        rw [hfil]
        rfl
  · -- empty document set
    intro h
    subst h
    rfl
  · -- exception while fetching documents
    intro h
    subst h
    rfl

/-! ## Domain router (`multi_agent_service.py`, `detect_domain`)

The six domain profiles of `MultiAgentService.domain_configs`, in dict
insertion order.  The keyword lists are transcribed verbatim from the source
(the health list contains many duplicate entries; Python counts each list
entry separately, and so does this model). -/

inductive AgentDomain where
  | general
  | health
  | agriculture
  | legal
  | finance
  | education
deriving DecidableEq

def healthKeywords : List (List Char) := ["health".data, "medical".data, "doctor".data, "patient".data, "treatment".data, "symptoms".data, "medicine".data, "wellness".data, "fitness".data, "nutrition".data, "disease".data, "therapy".data, "hospital".data, "clinic".data, "pharmacy".data, "vaccine".data, "diagnosis".data, "prescription".data, "surgery".data, "recovery".data, "diabetes".data, "cancer".data, "heart".data, "blood".data, "pain".data, "fever".data, "cough".data, "headache".data, "stomach".data, "chest".data, "back".data, "joint".data, "muscle".data, "bone".data, "skin".data, "eye".data, "ear".data, "nose".data, "throat".data, "lung".data, "liver".data, "kidney".data, "brain".data, "mental".data, "anxiety".data, "depression".data, "stress".data, "sleep".data, "exercise".data, "diet".data, "vitamin".data, "protein".data, "fat".data, "carbohydrate".data, "calorie".data, "weight".data, "obesity".data, "hypertension".data, "cholesterol".data, "blood pressure".data, "heart attack".data, "stroke".data, "tumor".data, "infection".data, "bacteria".data, "virus".data, "fungus".data, "parasite".data, "allergy".data, "asthma".data, "arthritis".data, "thyroid".data, "hormone".data, "pregnancy".data, "birth".data, "child".data, "baby".data, "elderly".data, "aging".data, "death".data, "mortality".data, "life expectancy".data, "quality of life".data, "prevention".data, "screening".data, "early detection".data, "cure".data, "healing".data, "rehabilitation".data, "physical therapy".data, "occupational therapy".data, "speech therapy".data, "psychotherapy".data, "counseling".data, "meditation".data, "yoga".data, "acupuncture".data, "chiropractic".data, "homeopathy".data, "herbal".data, "natural".data, "alternative".data, "complementary".data, "traditional".data, "western".data, "eastern".data, "holistic".data, "integrated".data, "personalized".data, "precision".data, "genomic".data, "genetic".data, "molecular".data, "cellular".data, "tissue".data, "organ".data, "system".data, "physiology".data, "anatomy".data, "pathology".data, "pharmacology".data, "toxicology".data, "epidemiology".data, "biostatistics".data, "clinical trial".data, "research".data, "evidence".data, "guideline".data, "protocol".data, "standard".data, "best practice".data, "quality".data, "safety".data, "efficacy".data, "effectiveness".data, "outcome".data, "prognosis".data, "morbidity".data, "survival".data, "remission".data, "relapse".data, "recurrence".data, "metastasis".data, "progression".data, "staging".data, "grading".data, "classification".data, "differential".data, "rule out".data, "confirm".data, "verify".data, "test".data, "laboratory".data, "imaging".data, "x-ray".data, "ct".data, "mri".data, "ultrasound".data, "endoscopy".data, "biopsy".data, "operation".data, "procedure".data, "intervention".data, "medication".data, "drug".data, "dosage".data, "side effect".data, "adverse".data, "complication".data, "risk".data, "benefit".data, "cost".data, "insurance".data, "coverage".data, "reimbursement".data, "payment".data, "billing".data, "coding".data, "documentation".data, "record".data, "chart".data, "note".data, "report".data, "consultation".data, "referral".data, "follow-up".data, "monitoring".data, "surveillance".data, "immunization".data, "booster".data, "shot".data, "injection".data, "oral".data, "topical".data, "intravenous".data, "intramuscular".data, "subcutaneous".data, "intradermal".data, "transdermal".data, "inhalation".data, "nasal".data, "rectal".data, "vaginal".data, "urethral".data, "intraocular".data, "intrathecal".data, "intraperitoneal".data, "intrapleural".data, "intraarticular".data, "intralesional".data, "intracardiac".data, "intracerebral".data, "intraspinal".data, "intraosseous".data, "intrauterine".data, "intraamniotic".data, "intraplacental".data, "intrafetal".data, "intraembryonic".data, "intraovarian".data, "intratesticular".data, "intraprostatic".data, "intravesical".data, "intraurethral".data, "intravaginal".data, "intrarectal".data, "intraanal".data, "intraoral".data, "intranasal".data, "intraauricular".data, "intraocular".data, "intracranial".data, "intracerebral".data, "intraventricular".data, "intracisternal".data, "intraspinal".data, "intradural".data, "intraepidural".data, "intrasubarachnoid".data, "intracerebroventricular".data, "intracisternal".data, "intraventricular".data, "intracerebral".data, "intracranial".data, "intraocular".data, "intraauricular".data, "intranasal".data, "intraoral".data, "intraanal".data, "intrarectal".data, "intravaginal".data, "intraurethral".data, "intravesical".data, "intraprostatic".data, "intratesticular".data, "intraovarian".data, "intraembryonic".data, "intrafetal".data, "intraplacental".data, "intraamniotic".data, "intrauterine".data, "intraosseous".data, "intraspinal".data, "intracerebral".data, "intracardiac".data, "intralesional".data, "intraarticular".data, "intrapleural".data, "intraperitoneal".data, "intrathecal".data, "intraocular".data, "transdermal".data, "intradermal".data, "subcutaneous".data, "intramuscular".data, "intravenous".data, "topical".data, "oral".data, "injection".data, "shot".data, "booster".data, "immunization".data, "vaccination".data, "prevention".data, "screening".data, "surveillance".data, "monitoring".data, "follow-up".data, "referral".data, "consultation".data, "report".data, "note".data, "chart".data, "record".data, "documentation".data, "coding".data, "billing".data, "payment".data, "reimbursement".data, "coverage".data, "insurance".data, "cost".data, "benefit".data, "risk".data, "complication".data, "adverse".data, "side effect".data, "dosage".data, "prescription".data, "drug".data, "medication".data, "therapy".data, "treatment".data, "intervention".data, "procedure".data, "operation".data, "surgery".data, "biopsy".data, "endoscopy".data, "ultrasound".data, "mri".data, "ct".data, "x-ray".data, "imaging".data, "laboratory".data, "test".data, "verify".data, "confirm".data, "rule out".data, "differential".data, "diagnosis".data, "classification".data, "grading".data, "staging".data, "progression".data, "metastasis".data, "recurrence".data, "relapse".data, "remission".data, "survival".data, "mortality".data, "morbidity".data, "outcome".data, "effectiveness".data, "efficacy".data, "safety".data, "quality".data, "best practice".data, "protocol".data, "guideline".data, "evidence".data, "research".data, "clinical trial".data, "biostatistics".data, "epidemiology".data, "toxicology".data, "pharmacology".data, "pathology".data, "anatomy".data, "physiology".data, "system".data, "organ".data, "tissue".data, "cellular".data, "molecular".data, "genetic".data, "genomic".data, "precision".data, "personalized".data, "integrated".data, "holistic".data, "eastern".data, "western".data, "traditional".data, "complementary".data, "alternative".data, "natural".data, "herbal".data, "homeopathy".data, "chiropractic".data, "acupuncture".data, "yoga".data, "meditation".data, "counseling".data, "psychotherapy".data, "speech therapy".data, "occupational therapy".data, "physical therapy".data, "rehabilitation".data, "healing".data, "cure".data, "early detection".data, "screening".data, "prevention".data, "quality of life".data, "life expectancy".data, "mortality".data, "death".data, "aging".data, "elderly".data, "baby".data, "child".data, "birth".data, "pregnancy".data, "hormone".data, "thyroid".data, "diabetes".data, "arthritis".data, "asthma".data, "allergy".data, "parasite".data, "fungus".data, "virus".data, "bacteria".data, "infection".data, "tumor".data, "cancer".data, "stroke".data, "heart attack".data, "blood pressure".data, "cholesterol".data, "obesity".data, "weight".data, "calorie".data, "carbohydrate".data, "fat".data, "protein".data, "vitamin".data, "diet".data, "exercise".data, "sleep".data, "stress".data, "depression".data, "anxiety".data, "mental".data, "brain".data, "kidney".data, "liver".data, "lung".data, "throat".data, "nose".data, "ear".data, "eye".data, "skin".data, "bone".data, "muscle".data, "joint".data, "back".data, "chest".data, "stomach".data, "headache".data, "cough".data, "fever".data, "pain".data, "blood".data, "heart".data, "cancer".data, "diabetes".data]

def agricultureKeywords : List (List Char) := ["agriculture".data, "farming".data, "crops".data, "livestock".data, "soil".data, "fertilizer".data, "pesticide".data, "harvest".data, "irrigation".data, "tractor".data, "greenhouse".data, "organic".data, "sustainable".data, "cattle".data, "poultry".data, "dairy".data, "grain".data, "vegetables".data, "fruits".data, "farm".data, "farmer".data]

def legalKeywords : List (List Char) := ["legal".data, "law".data, "attorney".data, "lawyer".data, "court".data, "contract".data, "regulation".data, "compliance".data, "litigation".data, "jurisdiction".data, "statute".data, "case law".data, "legal advice".data, "legal document".data, "legal rights".data, "legal obligation".data, "legal procedure".data, "legal system".data, "legal precedent".data, "legal counsel".data]

def financeKeywords : List (List Char) := ["finance".data, "financial".data, "investment".data, "money".data, "banking".data, "stock".data, "bond".data, "mutual fund".data, "retirement".data, "tax".data, "budget".data, "savings".data, "loan".data, "credit".data, "mortgage".data, "insurance".data, "portfolio".data, "dividend".data, "interest".data, "capital".data, "revenue".data, "profit".data, "loss".data, "asset".data, "liability".data]

def educationKeywords : List (List Char) := ["education".data, "teaching".data, "learning".data, "student".data, "teacher".data, "school".data, "university".data, "college".data, "course".data, "curriculum".data, "lesson".data, "assignment".data, "homework".data, "study".data, "exam".data, "test".data, "grade".data, "academic".data, "scholarship".data, "degree".data, "diploma".data, "certificate".data, "tutorial".data, "lecture".data, "seminar".data, "workshop".data]


def domainKeywords : AgentDomain → List (List Char)
  | .general => []
  | .health => healthKeywords
  | .agriculture => agricultureKeywords
  | .legal => legalKeywords
  | .finance => financeKeywords
  | .education => educationKeywords

def domainName : AgentDomain → List Char
  | .general => "General Assistant".data
  | .health => "Health Assistant".data
  | .agriculture => "Agriculture Assistant".data
  | .legal => "Legal Assistant".data
  | .finance => "Finance Assistant".data
  | .education => "Education Assistant".data

/-- Iteration order of `self.domain_configs` (dict insertion order). -/
def configOrder : List AgentDomain :=
  [.health, .agriculture, .legal, .finance, .education, .general]

/-- First maximal element of a nonempty scored list, modelling Python
`max(domain_scores.items(), key=lambda x: x[1])` (which keeps the earliest
item on ties: a later item replaces the champion only when strictly
greater). -/
def maxByFirst {α : Type _} (sc : α → PyFloat) (l : List α) : Option α :=
  match l with
  | [] => none
  | x :: xs => some (xs.foldl (fun best y => if pfLt (sc best) (sc y) then y else best) x)

/-- Model of `MultiAgentService.detect_domain`: lowercase `question + " " + context`,
score every non-general profile by (matching keywords) / (keyword count), and
return the best-scoring profile if its score exceeds 0.02, else GENERAL.
(The scores `m / n` that arise have `n ∈ {458, 21, 20, 25, 26}`; none of them
is close enough to 0.02 for binary-double comparison to disagree with the
exact rational comparison used here.) -/
def detect_domain (question : List Char) (context : List Char := []) : AgentDomain :=
  let text := lowerStr (question ++ [' '] ++ context)
  let domain_scores : List (AgentDomain × PyFloat) :=
    (configOrder.filter (fun d => d ≠ AgentDomain.general)).map (fun d =>
      let keywords := domainKeywords d
      let score := (keywords.filter (fun k => hasSub k text)).length
      (d, if keywords.isEmpty then pfOfNat score
          else pfDivNat (pfOfNat score) keywords.length))
  match maxByFirst Prod.snd domain_scores with
  | some best => if pfLt ⟨1, 49⟩ best.2 then best.1 else AgentDomain.general
  | none => AgentDomain.general

theorem pfLe_refl (a : PyFloat) : pfLe a a = true := by
  rw [pfLe_iff]

theorem pfLt_eq_false_iff (a b : PyFloat) : pfLt a b = false ↔ b.toRat ≤ a.toRat := by
  rw [← Bool.not_eq_true, pfLt_iff, not_lt]

theorem pfLe_eq_false_iff (a b : PyFloat) : pfLe a b = false ↔ b.toRat < a.toRat := by
  rw [← Bool.not_eq_true, pfLe_iff, not_le]

/-- The first maximum computed by the left fold (Python `max` with a key) is
the first list element whose score is greater than or equal to every score in
the list. -/
theorem maxByFirst_eq_find? {α : Type _} (sc : α → PyFloat) :
    ∀ (xs : List α) (x : α),
      some (xs.foldl (fun best y => if pfLt (sc best) (sc y) then y else best) x)
      = List.find? (fun z => (x :: xs).all (fun y => pfLe (sc y) (sc z))) (x :: xs) := by
  intro xs
  induction xs with
  | nil =>
    intro x
    simp [List.find?, pfLe_refl]
  | cons y ys ih =>
    intro x
    rw [List.foldl_cons]
    by_cases hxy : pfLt (sc x) (sc y) = true
    · rw [if_pos hxy, ih y]
      have hlt : (sc x).toRat < (sc y).toRat := (pfLt_iff _ _).mp hxy
      have hpeq : (fun z => (y :: ys).all (fun y' => pfLe (sc y') (sc z)))
          = (fun z => (x :: y :: ys).all (fun y' => pfLe (sc y') (sc z))) := by
        funext z
        rw [List.all_cons (a := x)]
        cases hA : (y :: ys).all (fun y' => pfLe (sc y') (sc z)) with
        | false => rw [Bool.and_false]
        | true =>
          have hyz : pfLe (sc y) (sc z) = true :=
            List.all_eq_true.mp hA y (List.mem_cons_self y ys)
          have hxz : pfLe (sc x) (sc z) = true := by
            rw [pfLe_iff]
            exact le_trans (le_of_lt hlt) ((pfLe_iff _ _).mp hyz)
          rw [hxz, Bool.true_and]
      rw [hpeq]
      have hqx : ¬ ((x :: y :: ys).all (fun y' => pfLe (sc y') (sc x)) = true) := by
        intro hq
        have hmem := List.all_eq_true.mp hq y (by simp)
        rw [pfLe_iff] at hmem
        exact absurd hmem (not_le.mpr hlt)
      rw [@List.find?_cons_of_neg _
        (fun z => (x :: y :: ys).all (fun y' => pfLe (sc y') (sc z))) x (y :: ys) hqx]
    · have hf : pfLt (sc x) (sc y) = false := Bool.eq_false_iff.mpr hxy
      have hyx : (sc y).toRat ≤ (sc x).toRat := (pfLt_eq_false_iff _ _).mp hf
      rw [if_neg hxy, ih x]
      have hpeq : (fun z => (x :: ys).all (fun y' => pfLe (sc y') (sc z)))
          = (fun z => (x :: y :: ys).all (fun y' => pfLe (sc y') (sc z))) := by
        funext z
        rw [List.all_cons (a := x), List.all_cons (a := x), List.all_cons (a := y)]
        cases hxz : pfLe (sc x) (sc z) with
        | false => simp only [Bool.false_and]
        | true =>
          have hyz : pfLe (sc y) (sc z) = true := by
            rw [pfLe_iff]
            exact le_trans hyx ((pfLe_iff _ _).mp hxz)
          rw [hyz]
          simp only [Bool.true_and]
      rw [hpeq]
      by_cases hqx : ((x :: y :: ys).all (fun y' => pfLe (sc y') (sc x)) = true)
      · rw [@List.find?_cons_of_pos _
          (fun z => (x :: y :: ys).all (fun y' => pfLe (sc y') (sc z))) x ys hqx]
        rw [@List.find?_cons_of_pos _
          (fun z => (x :: y :: ys).all (fun y' => pfLe (sc y') (sc z))) x (y :: ys) hqx]
      · rw [@List.find?_cons_of_neg _
          (fun z => (x :: y :: ys).all (fun y' => pfLe (sc y') (sc z))) x ys hqx]
        rw [@List.find?_cons_of_neg _
          (fun z => (x :: y :: ys).all (fun y' => pfLe (sc y') (sc z))) x (y :: ys) hqx]
        have hqy : ¬ ((x :: y :: ys).all (fun y' => pfLe (sc y') (sc y)) = true) := by
          intro hq
          apply hqx
          have hall := List.all_eq_true.mp hq
          have hxley : (sc x).toRat ≤ (sc y).toRat := by
            rw [← pfLe_iff]
            exact hall x (by simp)
          have heq : (sc x).toRat = (sc y).toRat := le_antisymm hxley hyx
          rw [List.all_eq_true]
          intro z hz
          rw [pfLe_iff, heq, ← pfLe_iff]
          exact hall z hz
        rw [@List.find?_cons_of_neg _
          (fun z => (x :: y :: ys).all (fun y' => pfLe (sc y') (sc z))) y ys hqy]

/-- First maximal element via its declarative description: the first list
element whose score is greater than or equal to every score in the list. -/
def firstMaxBy {α : Type _} (sc : α → PyFloat) (l : List α) : Option α :=
  List.find? (fun z => l.all (fun y => pfLe (sc y) (sc z))) l

theorem maxByFirst_eq_firstMaxBy {α : Type _} (sc : α → PyFloat) (l : List α) :
    maxByFirst sc l = firstMaxBy sc l := by
  cases l with
  | nil => rfl
  | cons x xs => exact maxByFirst_eq_find? sc xs x

/-- The score of a profile as the claim words it: matching keywords divided
by keyword count, 0 for a profile without keywords. -/
def profileScoreSpec (d : AgentDomain) (text : List Char) : PyFloat :=
  if (domainKeywords d).isEmpty then ⟨0, 0⟩
  else pfDivNat (pfOfNat (((domainKeywords d).filter (fun k => hasSub k text)).length))
         (domainKeywords d).length

/-- Modelled from the claim's wording for C5: lowercase `question + " " +
context`; score every non-general profile; return the maximum-scoring
profile (first-encountered on ties) when its score exceeds the threshold,
otherwise GENERAL. -/
def detect_domain_specC5 (question context : List Char) : AgentDomain :=
  let text := lowerStr (question ++ [' '] ++ context)
  let scores := (configOrder.filter (fun d => d ≠ AgentDomain.general)).map
    (fun d => (d, profileScoreSpec d text))
  match firstMaxBy Prod.snd scores with
  | some best => if pfLt ⟨1, 49⟩ best.2 then best.1 else AgentDomain.general
  | none => AgentDomain.general

theorem nonGeneral_profiles :
    configOrder.filter (fun d => d ≠ AgentDomain.general)
    = [.health, .agriculture, .legal, .finance, .education] := rfl

theorem domainScores_eq (text : List Char) :
    ((configOrder.filter (fun d => d ≠ AgentDomain.general)).map (fun d =>
      (d, if (domainKeywords d).isEmpty
          then pfOfNat (((domainKeywords d).filter (fun k => hasSub k text)).length)
          else pfDivNat
            (pfOfNat (((domainKeywords d).filter (fun k => hasSub k text)).length))
            (domainKeywords d).length)))
    = ((configOrder.filter (fun d => d ≠ AgentDomain.general)).map (fun d =>
      (d, profileScoreSpec d text))) := by
  apply List.map_congr_left
  rw [nonGeneral_profiles]
  intro d hd
  fin_cases hd <;> rfl

/-- C5: `detect_domain` computes exactly what the claim describes — lowercase
`question + " " + context`, per-profile keyword-overlap scores normalized by
keyword count, maximum profile with first-encountered tie-breaking, returned
only above the 0.02 threshold, GENERAL otherwise. -/
theorem detect_domain_matches_spec (q c : List Char) :
    detect_domain q c = detect_domain_specC5 q c := by
  unfold detect_domain detect_domain_specC5
  dsimp only
  rw [domainScores_eq, maxByFirst_eq_firstMaxBy]

/-! ## C9: determinism of the domain router

`detect_domain` reads only `self.domain_configs`, which is written once in
`__init__` and never mutated.  The method is modelled as an explicit
state-passing function over that table: it returns the table unchanged, and
its result is a function of (table, question, context) alone. -/

/-- The function `detect_domain` generalized over the profile table it reads
(`self.domain_configs` as a `(domain, keywords)` association list). -/
def detect_domainWith (configs : List (AgentDomain × List (List Char)))
    (question context : List Char) : AgentDomain :=
  let text := lowerStr (question ++ [' '] ++ context)
  let domain_scores : List (AgentDomain × PyFloat) :=
    (configs.filter (fun p => p.1 ≠ AgentDomain.general)).map (fun p =>
      let keywords := p.2
      let score := (keywords.filter (fun k => hasSub k text)).length
      (p.1, if keywords.isEmpty then pfOfNat score
            else pfDivNat (pfOfNat score) keywords.length))
  match maxByFirst Prod.snd domain_scores with
  | some best => if pfLt ⟨1, 49⟩ best.2 then best.1 else AgentDomain.general
  | none => AgentDomain.general

/-- The mutable state of a `MultiAgentService` instance that `detect_domain`
can see. -/
structure ServiceState where
  domain_configs : List (AgentDomain × List (List Char))
deriving DecidableEq

/-- The table built by `__init__`. -/
def initState : ServiceState := ⟨configOrder.map (fun d => (d, domainKeywords d))⟩

/-- The method `detect_domain` as a state transformer: value and post-state. -/
def detect_domain_st (st : ServiceState) (question context : List Char) :
    AgentDomain × ServiceState :=
  (detect_domainWith st.domain_configs question context, st)

/-- Sanity: on the table built by `__init__`, the state-passing model
computes the same domain as the direct model. -/
theorem detect_domain_st_agrees (q c : List Char) :
    (detect_domain_st initState q c).1 = detect_domain q c := rfl

/-- C9: running the classifier twice in sequence from any instance state
yields the same domain both times, and the state is unchanged — the
classification is deterministic and mutates no hidden state. -/
theorem detect_domain_idempotent (st : ServiceState) (q c : List Char) :
    (detect_domain_st st q c).1 = (detect_domain_st (detect_domain_st st q c).2 q c).1
    ∧ (detect_domain_st st q c).2 = st :=
  ⟨rfl, rfl⟩

/-! ## Generation layer (`multi_agent_service.py`) and the query route
(`query.py`, `query_documents`)

External effects are supplied by an `Env` record: the chat-session table and
documents table read from the relational store, the vector store's
availability and search outcome, the embedding provider outcome, the
generative model call outcome (an oracle keyed by domain, truncated context
and question — the pieces the prompt is built from), `str(model)` per
domain, and the web-search provider outcome.  An `Except.error` / `none`
models a raised exception / `None` return. -/

structure Env where
  chatSessions : List (List Char × Int)
  dbDocs : List Doc
  vectorAvailable : Bool
  vectorOutcome : Except Unit (List SearchResult)
  embOutcome : ProviderOutcome
  md5hex : List Char → List Char
  rand : Nat → ℚ
  genOutcome : AgentDomain → List Char → List Char → Except Unit (List Char)
  modelRepr : AgentDomain → List Char
  webSearchEnabled : Bool
  webSearchOutcome : Option (List Char)

/-- The result dict of `MultiAgentService.generate_response` and friends;
keys that are only sometimes set are `Option`s. -/
structure AIResult where
  answer : List Char
  domain : AgentDomain
  model_used : List Char
  success : Bool
  web_search_used : Option Bool
  search_method : Option (List Char)
  original_response : Option (List Char)
deriving DecidableEq

/-- The 15000-character context cut applied inside `generate_response`. -/
def truncate15000 (context : List Char) : List Char :=
  if 15000 < context.length then context.take 15000 ++ truncation_marker else context

/-- Model of `MultiAgentService._create_fallback_response`: list the context lines that
mention a file/document or are longer than 50 characters (stripped), at most
10 of them, in a fixed apology template; `model_used` is `"fallback"`. -/
def create_fallback_responseMA (context question : List Char) (domain : AgentDomain) :
    AIResult :=
  let relevant_info :=
    ((context.splitOn '\n').filterMap (fun line =>
      if hasSub "filename".data (lowerStr line) || hasSub "document".data (lowerStr line) then
        some (pyStrip line)
      else if 50 < (pyStrip line).length then some (pyStrip line)
      else none)).take 10
  let response :=
    "I found relevant documents but I'm having trouble processing them with the ".data
    ++ domainName domain
    ++ " right now. Here's what I found:\n\n".data
    ++ joinSep "\n".data relevant_info
    ++ "\n\nQuestion asked: ".data ++ question
    ++ "\n\nNote: The ".data ++ domainName domain
    ++ " is temporarily unavailable. Please try again in a few minutes for a more detailed analysis.".data
  { answer := response, domain := domain, model_used := "fallback".data, success := false,
    web_search_used := none, search_method := none, original_response := none }

/-- Model of `MultiAgentService.generate_response`: truncate the context, call the
domain model; a raised exception or an empty generation falls back to
`_create_fallback_response` — the method itself never raises. -/
def generate_responseMA (env : Env) (question context : List Char)
    (domain? : Option AgentDomain) : AIResult :=
  let dom := match domain? with
    | some d => d
    | none => detect_domain question context
  let context := truncate15000 context
  match env.genOutcome dom context question with
  | .ok t =>
    if ¬t.isEmpty then
      { answer := t, domain := dom, model_used := env.modelRepr dom, success := true,
        web_search_used := none, search_method := none, original_response := none }
    else create_fallback_responseMA context question dom
  | .error _ => create_fallback_responseMA context question dom

/-- The sentinel context installed by the route when escalating to
web-search-only mode. -/
def sentinelContext : List Char :=
  "No relevant documents found. Using web search for information.".data

/-- The fixed "insufficient information" phrases checked (case-insensitively)
against the generated answer. -/
def insufficient_keywords : List (List Char) :=
  ["doesn't contain enough information".data,
   "not enough information".data,
   "no information found".data,
   "cannot answer".data,
   "unable to answer".data,
   "don't have enough information".data,
   "cannot be answered from the given source".data,
   "does not contain information".data,
   "doesn't contain information".data,
   "no information about".data,
   "does not have information".data,
   "doesn't have information".data,
   "cannot provide information".data,
   "unable to provide information".data]

/-- Model of `MultiAgentService.search_web`: `None` when web search is disabled,
otherwise the outcome of the provider chain for this request (oracle);
every provider failure is already absorbed into `none`. -/
def search_web (env : Env) : Option (List Char) :=
  if env.webSearchEnabled then env.webSearchOutcome else none

/-- Model of `MultiAgentService.generate_response_with_web_search`. -/
def generate_response_with_web_search (env : Env) (question context : List Char)
    (domain? : Option AgentDomain) : AIResult :=
  let is_web_search_only := pyStrip context = sentinelContext
  if is_web_search_only then
    match search_web env with
    | some web_content =>
      let web_result := generate_responseMA env question web_content domain?
      { web_result with web_search_used := some true,
                        search_method := some "web_search_only".data }
    | none =>
      generate_responseMA env question
        "No information found from documents or web search.".data domain?
  else
    let result := generate_responseMA env question context domain?
    let response_lower := lowerStr result.answer
    let has_insufficient_info := insufficient_keywords.any (fun k => hasSub k response_lower)
    if has_insufficient_info && env.webSearchEnabled then
      match search_web env with
      | some web_content =>
        let combined_context :=
          context ++ "\n\n--- Web Search Results ---\n".data ++ web_content
        let web_result := generate_responseMA env question combined_context domain?
        { web_result with web_search_used := some true,
                          original_response := some result.answer }
      | none => { result with web_search_used := some false }
    else { result with web_search_used := some false }

/-- The body of `POST /query`. -/
structure QueryRequest where
  question : List Char
  session_id : Option (List Char)
  domain : Option (List Char)
  use_web_search : Bool

/-- An `HTTPException(status_code, detail)`. -/
structure HttpError where
  status : Nat
  detail : List Char
deriving DecidableEq

/-- The response model of the query route (provenance strings included). -/
structure QueryResponse where
  answer : List Char
  sources : List (List Char × List Char)
  documents_found : Nat
  search_method : List Char
  ai_method : List Char
  embedding_method : List Char
  fallback_used : Bool
  domain : AgentDomain
  domain_name : List Char
  web_search_used : Bool
  model_used : List Char
deriving DecidableEq

/-- Python `AgentDomain(request.domain.lower())`; `none` models the `ValueError` on
an unknown id (the route then falls back to auto-detection). -/
def parseDomain (s : List Char) : Option AgentDomain :=
  let l := lowerStr s
  if l = "general".data then some AgentDomain.general
  else if l = "health".data then some AgentDomain.health
  else if l = "agriculture".data then some AgentDomain.agriculture
  else if l = "legal".data then some AgentDomain.legal
  else if l = "finance".data then some AgentDomain.finance
  else if l = "education".data then some AgentDomain.education
  else none

/-- Python `db.query(ChatSession).filter(session_id == sid).first()`, reduced to the
creation timestamp. -/
def lookupSession (sessions : List (List Char × Int)) (sid : List Char) : Option Int :=
  (sessions.find? (fun p => decide (p.1 = sid))).map Prod.snd

/-- The dict `{doc.document_id: doc for doc in db.query(Document).all()}`:
a later row with the same id overwrites an earlier one. -/
def lookupDocLast (docs : List Doc) (did : List Char) : Option Doc :=
  (docs.filter (fun d => decide (d.document_id = did))).getLast?

/-- The session filter of the route's vector branch: keep exactly the results
whose payload names a known document uploaded after the chat's creation. -/
def vectorFilterByDate (docs : List Doc) (t : Int) (rs : List SearchResult) :
    List SearchResult :=
  rs.filter (fun r => match r.payload with
    | some pl => match pl.document_id with
      | some did => match lookupDocLast docs did with
        | some doc => decide (t < doc.upload_date)
        | none => false
      | none => false
    | none => false)

/-- The retrieval portion of `query_documents` (lines 76–131): vector search
when available, date-filtered when a session cutoff exists, then the keyword
fallback when no results survive; paired with the `search_method` tag. -/
def retrieveStep (env : Env) (question : List Char) (ct : Option Int) :
    List SearchResult × List Char :=
  let vecPair : List SearchResult × List Char :=
    if env.vectorAvailable then
      match env.vectorOutcome with
      | .ok vector_results =>
        if ¬vector_results.isEmpty then
          match ct with
          | some t => (vectorFilterByDate env.dbDocs t vector_results, "qdrant_filtered".data)
          | none => (vector_results, "qdrant".data)
        else ([], "fallback".data)
      | .error _ => ([], "fallback".data)
    else ([], "fallback".data)
  if vecPair.1.isEmpty then
    let fb := fallback_search question (some env.dbDocs) ct
    if ¬fb.isEmpty then (fb, "fallback".data) else ([], vecPair.2)
  else vecPair

/-- Python `len(search_results) > 0 and any(result.get('score', 0) > 0.1 ...)`. -/
def hasRelevantContext (rs : List SearchResult) : Bool :=
  (¬rs.isEmpty) && rs.any (fun r => pfLt ⟨1, 9⟩ (scoreOf r))

/-- Domain resolution, generation and final assembly of `query_documents`
(lines 153–230).  The route-level `except` chain around generation is dead
code in this model because both generation entry points are total (they
absorb every modelled failure), so `ai_method` is always `"multi-agent"`. -/
def composeResponse (env : Env) (req : QueryRequest) (question : List Char)
    (search_results : List SearchResult) (search_method context : List Char) :
    QueryResponse :=
  let requested := req.domain.bind parseDomain
  let dom := match requested with
    | some d => d
    | none => detect_domain question context
  let ai_result :=
    if req.use_web_search then generate_response_with_web_search env question context (some dom)
    else generate_responseMA env question context (some dom)
  let ai_method := "multi-agent".data
  let web_search_used := ai_result.web_search_used.getD false
  let final_search_method :=
    if web_search_used && decide (ai_result.search_method = some "web_search_only".data)
    then "web_search_only".data else search_method
  { answer := ai_result.answer,
    sources := search_results.filterMap (fun r => r.payload.map (fun pl =>
      (pl.filename.getD "Unknown".data, formatScore3 (scoreOf r)))),
    documents_found := search_results.length,
    search_method := final_search_method,
    ai_method := ai_method,
    embedding_method := "all-minilm-l6-v2".data,
    fallback_used := (decide (final_search_method = "fallback".data))
      || (decide (ai_method = "fallback".data)),
    domain := dom,
    domain_name := domainName dom,
    web_search_used := web_search_used,
    model_used := ai_result.model_used }

/-- Model of `query_documents`: validate, resolve the session cutoff, embed the
question, retrieve, build the context, branch on relevance/web-search, then
compose.  The two surfaced errors are the 400 on a blank question and the
404 when nothing relevant was found and web search is off. -/
def query_documents (env : Env) (req : QueryRequest) : Except HttpError QueryResponse :=
  let question := pyStrip req.question
  if question.isEmpty then .error ⟨400, "Question is required".data⟩
  else
    let chat_creation_time := req.session_id.bind (fun sid => lookupSession env.chatSessions sid)
    let _query_embeddings := create_embeddings env.md5hex env.rand env.embOutcome question
    let sr := retrieveStep env question chat_creation_time
    let context := build_context sr.1
    if hasRelevantContext sr.1 then
      .ok (composeResponse env req question sr.1 sr.2 context)
    else if req.use_web_search then
      .ok (composeResponse env req question sr.1 "web_search_only".data sentinelContext)
    else
      .error ⟨404,
        "No relevant documents found. Please upload documents or enable web search.".data⟩

/-- Decidable equality of `Except` outcomes (for concrete evaluations). -/
def exceptDecEq {ε α : Type _} [DecidableEq ε] [DecidableEq α] :
    (a b : Except ε α) → Decidable (a = b)
  | .ok a, .ok b =>
    if h : a = b then isTrue (by rw [h]) else isFalse (fun hc => by cases hc; exact h rfl)
  | .ok _, .error _ => isFalse (fun hc => by cases hc)
  | .error _, .ok _ => isFalse (fun hc => by cases hc)
  | .error e, .error f =>
    if h : e = f then isTrue (by rw [h]) else isFalse (fun hc => by cases hc; exact h rfl)

instance {ε α : Type _} [DecidableEq ε] [DecidableEq α] : DecidableEq (Except ε α) :=
  exceptDecEq

/-! ## Helper lemmas about context heads (a built context can never be
mistaken for the web-search sentinel) -/

theorem pyStrip_head? (s : List Char) (c : Char) (hc : s.head? = some c)
    (hns : pyIsSpace c = false) : (pyStrip s).head? = some c := by
  cases s with
  | nil => cases hc
  | cons a as =>
    have ha : a = c := by simpa using hc
    subst ha
    unfold pyStrip
    rw [List.dropWhile_cons, hns]
    simp only [Bool.false_eq_true, if_false]
    set r := (a :: as).reverse.dropWhile pyIsSpace with hr
    have hsuf : r <:+ (a :: as).reverse := List.dropWhile_suffix pyIsSpace
    have hrne : r ≠ [] := by
      intro h0
      rw [hr, List.dropWhile_eq_nil_iff] at h0
      have := h0 a (by simp)
      rw [hns] at this
      cases this
    have hpre : r.reverse <+: (a :: as) := by
      rw [← List.reverse_suffix, List.reverse_reverse]
      exact hsuf
    obtain ⟨u, hu⟩ := hpre
    cases hrv : r.reverse with
    | nil => exact absurd (List.reverse_eq_nil_iff.mp hrv) hrne
    | cons b bs =>
      rw [hrv] at hu
      have hb : b = a := by
        have := congrArg List.head? hu
        simpa using this
      rw [hb]
      rfl

theorem contextSegments_head (rs : List SearchResult) :
    ∀ seg ∈ contextSegments rs, seg.head? = some '[' := by
  intro seg hseg
  unfold contextSegments at hseg
  obtain ⟨p, _, hp⟩ := List.mem_filterMap.mp hseg
  cases hpl : p.2.payload with
  | none => rw [hpl] at hp; cases hp
  | some pl =>
    rw [hpl] at hp
    have : seg = "[Document ".data ++ ((Nat.repr (p.1 + 1)).data ++ (": ".data
        ++ (pl.filename.getD "Unknown".data ++ (", Relevance: ".data
        ++ (formatScore3 (scoreOf p.2) ++ ("]\n".data ++ pl.text.getD [])))))) := by
      have := Option.some.inj hp
      rw [← this]
      simp [List.append_assoc]
    rw [this]
    rfl

theorem joinSep_head (sep : List Char) (x : List Char) (xs : List (List Char))
    (hx : x ≠ []) : (joinSep sep (x :: xs)).head? = x.head? := by
  cases xs with
  | nil => rfl
  | cons y ys =>
    show (x ++ sep ++ joinSep sep (y :: ys)).head? = x.head?
    rw [List.append_assoc, List.head?_append]
    cases x with
    | nil => exact absurd rfl hx
    | cons a as => rfl

theorem build_context_head (rs : List SearchResult) (seg : List Char)
    (segs : List (List Char)) (hsegs : contextSegments rs = seg :: segs) :
    (build_context rs).head? = some '[' := by
  have hseg : seg.head? = some '[' :=
    contextSegments_head rs seg (by rw [hsegs]; exact List.mem_cons_self _ _)
  have hsegne : seg ≠ [] := by
    intro h0
    rw [h0] at hseg
    cases hseg
  have hnai : (naiveContext rs).head? = some '[' := by
    unfold naiveContext
    rw [hsegs, joinSep_head _ _ _ hsegne, hseg]
  unfold build_context
  dsimp only
  split
  · next hlen =>
    rw [List.head?_append]
    cases hn : naiveContext rs with
    | nil => rw [hn] at hlen; simp at hlen
    | cons a as =>
      rw [hn] at hnai
      have : a = '[' := by simpa using hnai
      rw [this]
      rfl
  · next hlen => exact hnai

theorem sentinel_strip : pyStrip sentinelContext = sentinelContext := by decide

theorem build_context_ne_sentinel (rs : List SearchResult) :
    pyStrip (build_context rs) ≠ sentinelContext := by
  cases hsegs : contextSegments rs with
  | nil =>
    have hb : build_context rs = [] := by
      unfold build_context naiveContext
      rw [hsegs]
      rfl
    rw [hb]
    decide
  | cons seg segs =>
    intro hcon
    have hh := build_context_head rs seg segs hsegs
    have hstrip := pyStrip_head? (build_context rs) '[' hh (by decide)
    rw [hcon] at hstrip
    cases hstrip

/-! ## Facts about the generation layer -/

theorem generateMA_search_method (env : Env) (q c : List Char) (d? : Option AgentDomain) :
    (generate_responseMA env q c d?).search_method = none := by
  unfold generate_responseMA create_fallback_responseMA
  dsimp only
  cases env.genOutcome (match d? with | some d => d | none => detect_domain q c)
      (truncate15000 c) q with
  | ok t =>
    by_cases ht : t.isEmpty
    · simp [ht]
    · simp [ht]
  | error e => rfl

theorem generateMA_web_search_used (env : Env) (q c : List Char) (d? : Option AgentDomain) :
    (generate_responseMA env q c d?).web_search_used = none := by
  unfold generate_responseMA create_fallback_responseMA
  dsimp only
  cases env.genOutcome (match d? with | some d => d | none => detect_domain q c)
      (truncate15000 c) q with
  | ok t =>
    by_cases ht : t.isEmpty
    · simp [ht]
    · simp [ht]
  | error e => rfl

theorem withWeb_search_method (env : Env) (q c : List Char) (d? : Option AgentDomain)
    (hns : pyStrip c ≠ sentinelContext) :
    (generate_response_with_web_search env q c d?).search_method = none := by
  unfold generate_response_with_web_search
  dsimp only
  rw [if_neg hns]
  by_cases hins : (insufficient_keywords.any (fun k =>
      hasSub k (lowerStr (generate_responseMA env q c d?).answer))
      && env.webSearchEnabled) = true
  · rw [if_pos hins]
    cases hsw : search_web env with
    | some w => simpa using generateMA_search_method env q _ d?
    | none => simpa using generateMA_search_method env q c d?
  · rw [if_neg hins]
    simpa using generateMA_search_method env q c d?

/-- Fixed leading text of every fallback answer produced by
`MultiAgentService._create_fallback_response`. -/
def maFallbackLead : List Char :=
  "I found relevant documents but I'm having trouble processing them with the ".data

theorem create_fallbackMA_facts (c q : List Char) (dom : AgentDomain) :
    (create_fallback_responseMA c q dom).model_used = "fallback".data
    ∧ maFallbackLead <+: (create_fallback_responseMA c q dom).answer := by
  refine ⟨rfl, ?_⟩
  unfold create_fallback_responseMA maFallbackLead
  dsimp only
  simp only [List.append_assoc]
  exact List.prefix_append _ _

theorem generateMA_error_facts (env : Env) (q c : List Char) (d? : Option AgentDomain)
    (hgen : ∀ d c' q', env.genOutcome d c' q' = .error ()) :
    (generate_responseMA env q c d?).model_used = "fallback".data
    ∧ maFallbackLead <+: (generate_responseMA env q c d?).answer := by
  unfold generate_responseMA
  dsimp only
  rw [hgen]
  exact create_fallbackMA_facts _ _ _

theorem withWeb_error_facts (env : Env) (q c : List Char) (d? : Option AgentDomain)
    (hgen : ∀ d c' q', env.genOutcome d c' q' = .error ()) :
    (generate_response_with_web_search env q c d?).model_used = "fallback".data
    ∧ maFallbackLead <+: (generate_response_with_web_search env q c d?).answer := by
  unfold generate_response_with_web_search
  dsimp only
  by_cases hsen : pyStrip c = sentinelContext
  · rw [if_pos hsen]
    cases hsw : search_web env with
    | some w => simpa using generateMA_error_facts env q w d? hgen
    | none => simpa using generateMA_error_facts env q _ d? hgen
  · rw [if_neg hsen]
    by_cases hins : (insufficient_keywords.any (fun k =>
        hasSub k (lowerStr (generate_responseMA env q c d?).answer))
        && env.webSearchEnabled) = true
    · rw [if_pos hins]
      cases hsw : search_web env with
      | some w => simpa using generateMA_error_facts env q _ d? hgen
      | none => simpa using generateMA_error_facts env q c d? hgen
    · rw [if_neg hins]
      simpa using generateMA_error_facts env q c d? hgen

/-! ## Facts about response composition -/

theorem composeResponse_basic (env : Env) (req : QueryRequest) (question : List Char)
    (sr : List SearchResult) (sm c : List Char) :
    (composeResponse env req question sr sm c).ai_method = "multi-agent".data
    ∧ (composeResponse env req question sr sm c).documents_found = sr.length :=
  ⟨rfl, rfl⟩

theorem cond_gen_search_method (env : Env) (q c : List Char) (d? : Option AgentDomain)
    (b : Bool) (hns : pyStrip c ≠ sentinelContext) :
    (if b = true then generate_response_with_web_search env q c d?
     else generate_responseMA env q c d?).search_method = none := by
  cases b with
  | true => simpa using withWeb_search_method env q c d? hns
  | false => simpa using generateMA_search_method env q c d?

theorem composeResponse_sm (env : Env) (req : QueryRequest) (question : List Char)
    (sr : List SearchResult) (sm c : List Char) (hns : pyStrip c ≠ sentinelContext) :
    (composeResponse env req question sr sm c).search_method = sm := by
  unfold composeResponse
  dsimp only
  rw [cond_gen_search_method env question c _ req.use_web_search hns]
  simp

theorem composeResponse_fallback_used (env : Env) (req : QueryRequest)
    (question : List Char) (sr : List SearchResult) (sm c : List Char) :
    (composeResponse env req question sr sm c).fallback_used
    = decide ((composeResponse env req question sr sm c).search_method
        = "fallback".data) := by
  unfold composeResponse
  dsimp only
  rw [show decide ("multi-agent".data = "fallback".data) = false from rfl, Bool.or_false]

theorem composeResponse_error_facts (env : Env) (req : QueryRequest)
    (question : List Char) (sr : List SearchResult) (sm c : List Char)
    (hgen : ∀ d c' q', env.genOutcome d c' q' = .error ()) :
    (composeResponse env req question sr sm c).model_used = "fallback".data
    ∧ maFallbackLead <+: (composeResponse env req question sr sm c).answer := by
  unfold composeResponse
  dsimp only
  cases hw : req.use_web_search with
  | true => exact withWeb_error_facts env question c _ hgen
  | false => exact generateMA_error_facts env question c _ hgen

theorem composeResponse_sentinel (env : Env) (req : QueryRequest) (question : List Char)
    (sr : List SearchResult) (hweb : req.use_web_search = true) :
    (composeResponse env req question sr "web_search_only".data sentinelContext).search_method
      = "web_search_only".data
    ∧ (composeResponse env req question sr "web_search_only".data
        sentinelContext).web_search_used = (search_web env).isSome := by
  unfold composeResponse
  dsimp only
  have hai : ∀ d? : Option AgentDomain,
      (if req.use_web_search = true then
        generate_response_with_web_search env question sentinelContext d?
      else generate_responseMA env question sentinelContext d?)
      = generate_response_with_web_search env question sentinelContext d? := by
    intro d?
    rw [hweb]
    exact if_pos rfl
  rw [hai]
  unfold generate_response_with_web_search
  dsimp only
  rw [if_pos sentinel_strip]
  cases hsw : search_web env with
  | some w => simp
  | none =>
    rw [generateMA_web_search_used env question _ _,
      generateMA_search_method env question _ _]
    simp
/-- C7 (amended): when every generative-model invocation raises, the
multi-agent service absorbs the failure internally; every successful response
of the route then carries the service's deterministic context fallback answer
(which always begins with the fixed apology lead, not the route-level listing
of 500-character result previews), `model_used = "fallback"`,
`ai_method = "multi-agent"` (the route-level generation `except` chain is
unreachable), and `fallback_used` is true exactly when the retrieval tag is
the keyword fallback. -/
theorem generation_failure_absorbed (env : Env) (req : QueryRequest)
    (hgen : ∀ d c' q', env.genOutcome d c' q' = .error ()) :
    ∀ resp, query_documents env req = .ok resp →
      resp.ai_method = "multi-agent".data
      ∧ resp.model_used = "fallback".data
      ∧ resp.fallback_used = decide (resp.search_method = "fallback".data)
      ∧ maFallbackLead <+: resp.answer := by
  intro resp h
  unfold query_documents at h
  by_cases hq : (pyStrip req.question).isEmpty = true
  · rw [if_pos hq] at h
    exact Except.noConfusion h
  · rw [if_neg hq] at h
    dsimp only at h
    by_cases hrel : hasRelevantContext (retrieveStep env (pyStrip req.question)
        (req.session_id.bind (fun sid => lookupSession env.chatSessions sid))).1 = true
    · rw [if_pos hrel] at h
      obtain rfl := (Except.ok.inj h)
      refine ⟨(composeResponse_basic env req _ _ _ _).1, ?_, ?_, ?_⟩
      · exact (composeResponse_error_facts env req _ _ _ _ hgen).1
      · exact composeResponse_fallback_used env req _ _ _ _
      · exact (composeResponse_error_facts env req _ _ _ _ hgen).2
    · rw [if_neg hrel] at h
      by_cases huse : req.use_web_search = true
      · rw [if_pos huse] at h
        obtain rfl := (Except.ok.inj h)
        refine ⟨(composeResponse_basic env req _ _ _ _).1, ?_, ?_, ?_⟩
        · exact (composeResponse_error_facts env req _ _ _ _ hgen).1
        · exact composeResponse_fallback_used env req _ _ _ _
        · exact (composeResponse_error_facts env req _ _ _ _ hgen).2
      · rw [if_neg huse] at h
        exact Except.noConfusion h

/-- C6: when retrieval produces zero results and web search is disabled for
the request, `query_documents` raises the distinct 404 "no relevant
documents" error, whatever the generative model would do — no generation
attempt is made (the outcome is independent of the generation oracle). -/
theorem no_results_web_disabled_404 (env : Env) (req : QueryRequest)
    (hq : (pyStrip req.question).isEmpty = false)
    (hzero : (retrieveStep env (pyStrip req.question)
        (req.session_id.bind (fun sid => lookupSession env.chatSessions sid))).1 = [])
    (hweb : req.use_web_search = false) :
    ∀ gen : AgentDomain → List Char → List Char → Except Unit (List Char),
      query_documents { env with genOutcome := gen } req
      = .error ⟨404,
          "No relevant documents found. Please upload documents or enable web search.".data⟩ := by
  intro gen
  have hzero' : (retrieveStep { env with genOutcome := gen } (pyStrip req.question)
      (req.session_id.bind (fun sid => lookupSession env.chatSessions sid))).1 = [] := hzero
  unfold query_documents
  dsimp only
  rw [if_neg (by rw [hq]; exact Bool.false_ne_true), hzero']
  rw [if_neg (by intro hc; exact Bool.noConfusion hc)]
  rw [if_neg (by rw [hweb]; exact Bool.false_ne_true)]

/-- C1 (amended): when the request's session id resolves to a chat session
with creation time `t`, and the available vector store returns a non-empty
result list `rs`, the route keeps exactly the results of the single
unfiltered vector search whose document was uploaded after `t`; when that
filtered list is non-empty and relevant, the response's `search_method` is
`"qdrant_filtered"` (no (user AND session)-filtered vector search is issued
and no `session_vector_search` tag exists) and `documents_found` counts the
surviving results. -/
theorem session_scope_uses_date_filter (env : Env) (req : QueryRequest)
    (t : Int) (rs : List SearchResult)
    (hq : (pyStrip req.question).isEmpty = false)
    (hsid : req.session_id.bind (fun sid => lookupSession env.chatSessions sid) = some t)
    (hav : env.vectorAvailable = true)
    (hvec : env.vectorOutcome = .ok rs)
    (hne : rs.isEmpty = false)
    (hfil : (vectorFilterByDate env.dbDocs t rs).isEmpty = false)
    (hrel : hasRelevantContext (vectorFilterByDate env.dbDocs t rs) = true) :
    (query_documents env req).map (fun r => (r.search_method, r.documents_found))
    = .ok ("qdrant_filtered".data, (vectorFilterByDate env.dbDocs t rs).length) := by
  have hret : retrieveStep env (pyStrip req.question) (some t)
      = (vectorFilterByDate env.dbDocs t rs, "qdrant_filtered".data) := by
    unfold retrieveStep
    rw [if_pos hav, hvec]
    dsimp only
    rw [hne]
    rw [if_pos Bool.false_ne_true]
    dsimp only
    rw [hfil]
    rw [if_neg Bool.false_ne_true]
  unfold query_documents
  dsimp only
  rw [if_neg (by rw [hq]; exact Bool.false_ne_true), hsid, hret]
  dsimp only
  rw [if_pos hrel]
  dsimp only [Except.map]
  rw [composeResponse_sm env req _ _ _ _ (build_context_ne_sentinel _)]
  rw [(composeResponse_basic env req _ _ _ _).2]

/-- C8 (amended): when the request enables web search and retrieval yields no
relevant result (none at all, or none with score above 0.1), the route
escalates before generation: the context is replaced by the web-search
sentinel, the response's `search_method` is `"web_search_only"`, and
`web_search_used` is true exactly when the web-search provider chain
(enabled and) returned content. -/
theorem web_escalation_pre_generation (env : Env) (req : QueryRequest)
    (hq : (pyStrip req.question).isEmpty = false)
    (hweb : req.use_web_search = true)
    (hrel : hasRelevantContext (retrieveStep env (pyStrip req.question)
        (req.session_id.bind (fun sid => lookupSession env.chatSessions sid))).1 = false) :
    (query_documents env req).map (fun r => (r.search_method, r.web_search_used))
    = .ok ("web_search_only".data, (search_web env).isSome) := by
  unfold query_documents
  dsimp only
  rw [if_neg (by rw [hq]; exact Bool.false_ne_true)]
  rw [if_neg (by rw [hrel]; exact Bool.false_ne_true)]
  rw [if_pos hweb]
  dsimp only [Except.map]
  rw [(composeResponse_sentinel env req _ _ hweb).1,
    (composeResponse_sentinel env req _ _ hweb).2]

/-- Model of `query.py`'s module-level `_create_fallback_response`: a listing of each
retrieved result's filename, 3-decimal relevance and text preview truncated
to 500 characters (plus ellipsis), between a fixed header and note, joined
with newlines.  (With the multi-agent service absorbing every generation
failure, this route-level fallback is unreachable from `query_documents`.) -/
def create_fallback_response_route (search_results : List SearchResult)
    (_question : List Char) : List Char :=
  let header := "I found ".data ++ (Nat.repr search_results.length).data
    ++ " relevant document(s), but I'm having trouble processing them with AI right now. Here's what I found:\n".data
  let parts := search_results.enum.filterMap (fun p =>
    p.2.payload.map (fun pl =>
      let text := pl.text.getD []
      let preview := if 500 < text.length then text.take 500 ++ "...".data else text
      (Nat.repr (p.1 + 1)).data ++ ". ".data ++ pl.filename.getD "Unknown".data
        ++ " (relevance: ".data ++ formatScore3 (scoreOf p.2)
        ++ ")\nContent Preview: ".data ++ preview ++ "\n".data))
  let note := "\nNote: The AI service is temporarily unavailable. Please try again in a few minutes for a more detailed analysis.".data
  joinSep "\n".data ([header] ++ parts ++ [note])

/-! ## Concrete scenarios (counterexamples and witnesses) -/

def md5Stub : List Char → List Char := fun _ => "d41d8cd98f00b204e9800998ecf8427e".data

def okGen : AgentDomain → List Char → List Char → Except Unit (List Char) :=
  fun _ _ _ => Except.ok "Here is the answer.".data

def failGen : AgentDomain → List Char → List Char → Except Unit (List Char) :=
  fun _ _ _ => Except.error ()

def ignoredGen : AgentDomain → List Char → List Char → Except Unit (List Char) :=
  fun _ _ _ => Except.ok "ignored".data

def stubRepr : AgentDomain → List Char := fun _ => "models/gemini-1.5-flash".data

/-- Two vector results scoped to the session's documents (scores 0.81, 0.5),
as in the claim's Scenario A. -/
def sessionResults : List SearchResult :=
  [{ score := some ⟨81, 99⟩,
     payload := some { text := some "contract text one".data,
                       filename := some "fA.pdf".data, document_id := some "d1".data } },
   { score := some ⟨1, 1⟩,
     payload := some { text := some "contract text two".data,
                       filename := some "fB.pdf".data, document_id := some "d2".data } }]

def sessionEnv : Env :=
  { chatSessions := [("S".data, 0)],
    dbDocs := [⟨"d1".data, "fA.pdf".data, 5, none⟩, ⟨"d2".data, "fB.pdf".data, 6, none⟩],
    vectorAvailable := true,
    vectorOutcome := .ok sessionResults,
    embOutcome := .exn,
    md5hex := md5Stub, rand := fun _ => 0,
    genOutcome := okGen, modelRepr := stubRepr,
    webSearchEnabled := true, webSearchOutcome := none }

def sessionReq : QueryRequest :=
  { question := "What is in the uploaded contract?".data,
    session_id := some "S".data, domain := some "general".data, use_web_search := false }

/-- C1, counterexample: with a session-scoped request and two session-scoped
vector results (scores 0.81 and 0.5), the route reports `documents_found = 2`
but the strategy tag is `"qdrant_filtered"`, not `"session_vector_search"` —
the code never issues a (user AND session)-filtered vector search and never
produces that tag. -/
theorem session_tag_counterexample :
    (query_documents sessionEnv sessionReq).map
      (fun r => (r.documents_found, r.search_method))
      = .ok (2, "qdrant_filtered".data)
    ∧ "qdrant_filtered".data ≠ "session_vector_search".data := by
  constructor
  · decide
  · decide

/-- Witness for C1 (amended) on the Scenario-A input. -/
theorem session_scope_uses_date_filter_witness :
    (query_documents sessionEnv sessionReq).map
      (fun r => (r.search_method, r.documents_found))
      = .ok ("qdrant_filtered".data, 2) := by
  have h := session_scope_uses_date_filter sessionEnv sessionReq 0 sessionResults
    rfl rfl rfl rfl rfl rfl (by decide)
  rw [h]
  decide

def noDocsEnv : Env :=
  { chatSessions := [], dbDocs := [],
    vectorAvailable := false, vectorOutcome := .error (),
    embOutcome := .exn, md5hex := md5Stub, rand := fun _ => 0,
    genOutcome := okGen, modelRepr := stubRepr,
    webSearchEnabled := false, webSearchOutcome := none }

def noDocsReq : QueryRequest :=
  { question := "hello there".data, session_id := none, domain := none,
    use_web_search := false }

/-- Witness for C6: no documents at all, web search disabled — the 404 is
returned whatever the generation oracle would have answered. -/
theorem no_results_web_disabled_404_witness :
    query_documents { noDocsEnv with genOutcome := ignoredGen } noDocsReq
    = .error ⟨404,
        "No relevant documents found. Please upload documents or enable web search.".data⟩ :=
  no_results_web_disabled_404 noDocsEnv noDocsReq rfl rfl rfl ignoredGen

def genFailEnv : Env :=
  { chatSessions := [],
    dbDocs := [⟨"d1".data, "fA.pdf".data, 5, none⟩],
    vectorAvailable := true,
    vectorOutcome := .ok
      [{ score := some ⟨4, 4⟩,
         payload := some { text := some "contract text one".data,
                           filename := some "fA.pdf".data,
                           document_id := some "d1".data } }],
    embOutcome := .exn, md5hex := md5Stub, rand := fun _ => 0,
    genOutcome := failGen, modelRepr := stubRepr,
    webSearchEnabled := true, webSearchOutcome := none }

def genFailReq : QueryRequest :=
  { question := "What does the contract say?".data, session_id := none,
    domain := some "general".data, use_web_search := false }

/-- The response the route produces on the generation-failure scenario. -/
def genFailResp : QueryResponse :=
  composeResponse genFailEnv genFailReq (pyStrip genFailReq.question)
    (retrieveStep genFailEnv (pyStrip genFailReq.question) none).1
    (retrieveStep genFailEnv (pyStrip genFailReq.question) none).2
    (build_context (retrieveStep genFailEnv (pyStrip genFailReq.question) none).1)

/-- C7, counterexample: the generative model raises on every call, yet the
response has `fallback_used = false` (vector retrieval succeeded, so
`search_method = "qdrant"` and `ai_method = "multi-agent"`); only
`model_used = "fallback"` records the failure, and the answer is the
multi-agent service's context fallback, not the route-level listing of
result previews. -/
theorem generation_failure_flags_counterexample :
    (query_documents genFailEnv genFailReq).map
      (fun r => (r.fallback_used, r.model_used, r.ai_method, r.search_method))
      = .ok (false, "fallback".data, "multi-agent".data, "qdrant".data)
    ∧ (query_documents genFailEnv genFailReq).map (fun r => r.answer)
      ≠ .ok (create_fallback_response_route
          (retrieveStep genFailEnv (pyStrip genFailReq.question) none).1
          (pyStrip genFailReq.question)) := by
  constructor
  · decide
  · decide

/-- Witness for C7 (amended) on the generation-failure scenario. -/
theorem generation_failure_absorbed_witness :
    genFailResp.ai_method = "multi-agent".data
    ∧ genFailResp.model_used = "fallback".data
    ∧ genFailResp.fallback_used = false
    ∧ maFallbackLead <+: genFailResp.answer := by
  have h := generation_failure_absorbed genFailEnv genFailReq (fun _ _ _ => rfl)
    genFailResp rfl
  refine ⟨h.1, h.2.1, ?_, h.2.2.2⟩
  rw [h.2.2.1]
  decide

def shortResult : SearchResult :=
  { score := some ⟨1, 1⟩,
    payload := some { text := some "x".data, filename := some "f".data,
                      document_id := some "d1".data } }

def shortCtxEnv : Env :=
  { chatSessions := [],
    dbDocs := [⟨"d1".data, "f".data, 5, none⟩],
    vectorAvailable := true,
    vectorOutcome := .ok [shortResult],
    embOutcome := .exn, md5hex := md5Stub, rand := fun _ => 0,
    genOutcome := fun _ _ _ => Except.ok "All good.".data, modelRepr := stubRepr,
    webSearchEnabled := true, webSearchOutcome := some "Title: Web Search Results".data }

def shortCtxReq : QueryRequest :=
  { question := "tell me something".data, session_id := none,
    domain := some "general".data, use_web_search := true }

/-- C8, counterexample: the local context is far shorter than 100 characters
and web search is enabled, yet no escalation happens — the single retrieved
result's score 0.5 exceeds 0.1, so `search_method = "qdrant"` and
`web_search_used = false`.  The code's pre-generation trigger is
score-based, not context-length-based. -/
theorem short_context_no_escalation_counterexample :
    (build_context [shortResult]).length < 100
    ∧ (query_documents shortCtxEnv shortCtxReq).map
        (fun r => (r.search_method, r.web_search_used))
        = .ok ("qdrant".data, false) := by
  constructor
  · decide
  · decide

def webOnlyEnv : Env :=
  { chatSessions := [], dbDocs := [],
    vectorAvailable := false, vectorOutcome := .error (),
    embOutcome := .exn, md5hex := md5Stub, rand := fun _ => 0,
    genOutcome := okGen, modelRepr := stubRepr,
    webSearchEnabled := true,
    webSearchOutcome := some "Title: Web Search Results\nContent: something".data }

def webOnlyReq : QueryRequest :=
  { question := "what is new today".data, session_id := none,
    domain := some "general".data, use_web_search := true }

/-- Witness for C8 (amended): no retrievable documents, web search enabled
and productive — the escalation tag and flag are set. -/
theorem web_escalation_pre_generation_witness :
    (query_documents webOnlyEnv webOnlyReq).map
      (fun r => (r.search_method, r.web_search_used))
      = .ok ("web_search_only".data, true) := by
  have h := web_escalation_pre_generation webOnlyEnv webOnlyReq rfl rfl rfl
  rw [h]
  decide

/-- Witness for C10 on a concrete question/document set. -/
theorem fallback_search_invariants_witness :
    (fallback_search "the sun is hot".data
        (some [⟨"d1".data, "f1".data, 5, some "Sun sun SUN".data⟩,
               ⟨"d2".data, "f2".data, 5, some "nothing here".data⟩]) none).length ≤ 3
    ∧ (∀ r ∈ fallback_search "the sun is hot".data
        (some [⟨"d1".data, "f1".data, 5, some "Sun sun SUN".data⟩,
               ⟨"d2".data, "f2".data, 5, some "nothing here".data⟩]) none,
        0 < (scoreOf r).toRat)
    ∧ List.Sorted (fun a b => (scoreOf b).toRat ≤ (scoreOf a).toRat)
        (fallback_search "the sun is hot".data
          (some [⟨"d1".data, "f1".data, 5, some "Sun sun SUN".data⟩,
                 ⟨"d2".data, "f2".data, 5, some "nothing here".data⟩]) none)
    ∧ (questionKeywords "the sun is hot".data = [] →
        fallback_search "the sun is hot".data
          (some [⟨"d1".data, "f1".data, 5, some "Sun sun SUN".data⟩,
                 ⟨"d2".data, "f2".data, 5, some "nothing here".data⟩]) none = [])
    ∧ ((some [⟨"d1".data, "f1".data, 5, some "Sun sun SUN".data⟩,
               ⟨"d2".data, "f2".data, 5, some "nothing here".data⟩]
          : Option (List Doc)) = some [] →
        fallback_search "the sun is hot".data
          (some [⟨"d1".data, "f1".data, 5, some "Sun sun SUN".data⟩,
                 ⟨"d2".data, "f2".data, 5, some "nothing here".data⟩]) none = [])
    ∧ ((some [⟨"d1".data, "f1".data, 5, some "Sun sun SUN".data⟩,
               ⟨"d2".data, "f2".data, 5, some "nothing here".data⟩]
          : Option (List Doc)) = none →
        fallback_search "the sun is hot".data
          (some [⟨"d1".data, "f1".data, 5, some "Sun sun SUN".data⟩,
                 ⟨"d2".data, "f2".data, 5, some "nothing here".data⟩]) none = []) :=
  fallback_search_invariants "the sun is hot".data
    (some [⟨"d1".data, "f1".data, 5, some "Sun sun SUN".data⟩,
           ⟨"d2".data, "f2".data, 5, some "nothing here".data⟩]) none

/-- Witness for C2 at a concrete text and provider outcome. -/
theorem create_embeddings_always_768_witness :
    (create_embeddings md5Stub (fun _ => 0) (ProviderOutcome.ok [1, 2, 3])
      "hello".data).length = 768 :=
  create_embeddings_always_768 md5Stub (fun _ => 0) (ProviderOutcome.ok [1, 2, 3])
    "hello".data

/-- Witness for C4 (amended) at a concrete question and document set. -/
theorem fallback_search_matches_spec_witness :
    fallback_search "the sun is hot".data
      (some [⟨"d1".data, "f1".data, 5, some "Sun sun SUN".data⟩]) none
    = fallback_search_specA "the sun is hot".data
      (some [⟨"d1".data, "f1".data, 5, some "Sun sun SUN".data⟩]) none :=
  fallback_search_matches_spec "the sun is hot".data
    (some [⟨"d1".data, "f1".data, 5, some "Sun sun SUN".data⟩]) none

/-- Witness for C5 at the health-flavoured question of Scenario E. -/
theorem detect_domain_matches_spec_witness :
    detect_domain "How to treat diabetes symptoms?".data []
    = detect_domain_specC5 "How to treat diabetes symptoms?".data [] :=
  detect_domain_matches_spec "How to treat diabetes symptoms?".data []

/-- Witness for C9 on the initial instance state. -/
theorem detect_domain_idempotent_witness :
    (detect_domain_st initState "How to treat diabetes symptoms?".data []).1
      = (detect_domain_st
          (detect_domain_st initState "How to treat diabetes symptoms?".data []).2
          "How to treat diabetes symptoms?".data []).1
    ∧ (detect_domain_st initState "How to treat diabetes symptoms?".data []).2
      = initState :=
  detect_domain_idempotent initState "How to treat diabetes symptoms?".data []

end RagPipeline
